import Mathlib

/-!
Shallow embedding of the glue code in
`src/domain-packages/computer-vision/classification.ipynb` and proofs of
properties about it.

The notebook is sequential Python glue around external libraries (cvtk,
CNTK, the Azure ML CLI, `requests`, `json`, `base64`).  The embedding below
follows the notebook's own code:

* `score_image_with_http` (cell "Score with http request"): header
  construction, base64 encoding of the image bytes, Python's
  `"{0}".format(bytes)` rendering, payload construction, a single
  `requests.post`, and the `try/except` parsing of the response.
  The external `json.dumps` / `json.loads` functions and the HTTP transport
  are passed in as function parameters; the issued requests are returned
  alongside the result (writer-style), so that "how many requests were
  sent" is visible in the model.
* the classifier-selection cell (`if classifier_name.lower() == "dnn" ...
  else: raise Exception("Classifier unknown: " + classifier)`),
* the deployment cell (`is_existing_service` / `delete_if_service_exist`
  / `deploy`).
-/

namespace ClassificationNotebook

/-- Values produced by Python's `json.loads` (and fed to `json.dumps`):
null, booleans, numbers, strings, lists and string-keyed dictionaries. -/
inductive Json where
  | null : Json
  | bool (b : Bool) : Json
  | num (n : Int) : Json
  | str (s : String) : Json
  | arr (elems : List Json) : Json
  | obj (fields : List (String × Json)) : Json

/-- Keys of a Python dictionary value, in insertion order; `none` on a
non-dictionary value. -/
def Json.objKeys : Json → Option (List String)
  | Json.obj fields => some (fields.map Prod.fst)
  | _ => none

/-- Length of a Python list value; `none` on a non-list value. -/
def Json.arrLength : Json → Option Nat
  | Json.arr elems => some elems.length
  | _ => none

/-- Python subscripting `v[0]`, as the `try` block of
`score_image_with_http` applies it to the value returned by `json.loads`:
a list yields its first element (IndexError on an empty list), a string
yields its first character as a one-character string (Python strings index
to strings), and a dictionary (string keys only, as produced by
`json.loads`), number, boolean or `None` raises (KeyError / TypeError).
Every raising case is `none`; the bare `except:` of the source catches all
of them. -/
def indexZero : Json → Option Json
  | Json.arr (x :: _) => some x
  | Json.arr [] => none
  | Json.str s =>
      match s.toList with
      | [] => none
      | c :: _ => some (Json.str (String.mk [c]))
  | _ => none

/-- ASCII codes rendered as a Lean string. -/
def asciiString (codes : List Nat) : String :=
  String.mk (codes.map Char.ofNat)

/-- Python's `str.lower()` on the ASCII range, as applied to
`classifier_name` (uppercase letters A-Z map to a-z). -/
def pyLower (s : String) : String :=
  String.mk (s.toList.map (fun c =>
    if 65 ≤ c.toNat ∧ c.toNat ≤ 90 then Char.ofNat (c.toNat + 32) else c))

/-- Value of the standard base64 alphabet at index `n` (`A-Z`, `a-z`,
`0-9`, `+`, `/`), as an ASCII code. -/
def b64Char (n : Nat) : Nat :=
  if n < 26 then 65 + n
  else if n < 52 then 97 + (n - 26)
  else if n < 62 then 48 + (n - 52)
  else if n = 62 then 43
  else 47

/-- Python's `base64.b64encode` on a byte string (bytes as `Nat` codes):
groups of three bytes become four alphabet characters; a trailing group of
one or two bytes is padded with `=` (ASCII 61). -/
def b64encode : List Nat → List Nat
  | [] => []
  | [a] => [b64Char (a / 4), b64Char (a % 4 * 16), 61, 61]
  | [a, b] => [b64Char (a / 4), b64Char (a % 4 * 16 + b / 16), b64Char (b % 16 * 4), 61]
  | a :: b :: c :: rest =>
      b64Char (a / 4) :: b64Char (a % 4 * 16 + b / 16) ::
      b64Char (b % 16 * 4 + c / 64) :: b64Char (c % 64) :: b64encode rest

/-- Rendering of one byte inside Python's `repr` of a bytes object, given
the ASCII code of the chosen quote character: backslash and the quote are
backslash-escaped, tab / newline / carriage return use their letter
escapes, other printable ASCII bytes stand for themselves, and everything
else becomes a `\xhh` hex escape. -/
def pyByteEscape (quote : Nat) (b : Nat) : List Nat :=
  if b = 92 then [92, 92]
  else if b = quote then [92, quote]
  else if b = 9 then [92, 116]
  else if b = 10 then [92, 110]
  else if b = 13 then [92, 114]
  else if 32 ≤ b ∧ b < 127 then [b]
  else [92, 120, hexDigitCode (b / 16 % 16), hexDigitCode (b % 16)]
where
  hexDigitCode (d : Nat) : Nat := if d < 10 then 48 + d else 87 + d

/-- Python's `str`/`repr` of a bytes object, which is what
`"{0}".format(encoded)` produces in the source: a `b` prefix, a quote
(single quote by default; double quote when the bytes contain a single
quote but no double quote), the escaped bytes, and the closing quote. -/
def pyBytesRepr (bs : List Nat) : String :=
  let quote := if bs.contains 39 ∧ ¬ bs.contains 34 then 34 else 39
  asciiString ([98, quote] ++ (bs.map (pyByteEscape quote)).flatten ++ [quote])

/-- Header dictionary built by `score_image_with_http`: always
`Content-Type: application/json`, plus `Authorization: Bearer <key>` when
a service key is given (`service_key is None` means local deployment). -/
def mkHeaders (serviceKey : Option String) : List (String × String) :=
  match serviceKey with
  | none => [("Content-Type", "application/json")]
  | some k => [("Content-Type", "application/json"), ("Authorization", "Bearer " ++ k)]

/-- The single request object `score_image_with_http` builds:
`{"image_in_base64": "{0}".format(base64.b64encode(image bytes)),
"parameters": parameters}` (braces as in the Python source). -/
def mkImageRequest (imageBytes : List Nat) (parameters : Json) : Json :=
  Json.obj [("image_in_base64", Json.str (pyBytesRepr (b64encode imageBytes))),
            ("parameters", parameters)]

/-- The payload list: `payload = []` followed by a single
`payload.append(image_request)`. -/
def mkPayload (imageBytes : List Nat) (parameters : Json) : Json :=
  Json.arr [mkImageRequest imageBytes parameters]

/-- An HTTP request as issued by `requests.post(url, data=body,
headers=headers)`. -/
structure HttpRequest where
  url : String
  headers : List (String × String)
  body : String

/-- A byte that Python's bytes `repr` renders as itself under a
single-quote wrapper: printable ASCII other than backslash and either
quote character.  Every byte `b64encode` emits is of this kind. -/
def plainB64 (b : Nat) : Bool :=
  decide (32 ≤ b ∧ b < 127 ∧ b ≠ 92 ∧ b ≠ 39 ∧ b ≠ 34)

/-- The error message raised by `score_image_with_http` on a response it
cannot parse (verbatim from the source, including the typo). -/
def scoreErrorMsg (responseText : String) : String :=
  "Incorrect output format. Result cant not be parsed: " ++ responseText

/-- The `try`/`except`/`return` tail of `score_image_with_http`:
`result = json.loads(r.text); json.loads(result[0])`; any exception in
the `try` block (JSON decode error, IndexError/KeyError/TypeError on
`result[0]`, decode error or TypeError of the inner `json.loads`) is
caught by the bare `except:` and turned into
`ValueError(scoreErrorMsg r.text)`; otherwise `result[0]` is returned
unchanged.  `loads` stands for the external `json.loads`, `none` meaning
it raises. -/
def parseStep (loads : String → Option Json) (responseText : String)
    (result : Json) : Except String String :=
  match indexZero result with
  | some (Json.str s) =>
    match loads s with
    | some _ => Except.ok s
    | none => Except.error (scoreErrorMsg responseText)
  | _ => Except.error (scoreErrorMsg responseText)

/-- Splitting `result = json.loads(r.text)` off the `try` block: a decode
failure of the response text, and every failure inside `parseStep`, raise
the `ValueError`. -/
def tryParseResult (loads : String → Option Json) (responseText : String) :
    Except String String :=
  match loads responseText with
  | none => Except.error (scoreErrorMsg responseText)
  | some result => parseStep loads responseText result

/-- A parsed response value whose first element (`result[0]`) is a string
that `json.loads` accepts — exactly the values on which the `try` block of
`score_image_with_http` succeeds. -/
def goodFirst (loads : String → Option Json) (j : Json) : Prop :=
  ∃ s, indexZero j = some (Json.str s) ∧ (loads s).isSome = true

/-- The one HTTP request `score_image_with_http` constructs: the service
endpoint URL, the headers from `mkHeaders`, and as body the `json.dumps`
serialization of the payload (`dumps` stands for the external
`json.dumps`). -/
def mkScoreRequest (dumps : Json → String) (imageBytes : List Nat)
    (serviceEndpointUrl : String) (serviceKey : Option String)
    (parameters : Json) : HttpRequest :=
  HttpRequest.mk serviceEndpointUrl (mkHeaders serviceKey)
    (dumps (mkPayload imageBytes parameters))

/-- Embedding of `score_image_with_http(image, service_endpoint_url,
service_key=None, parameters={})`.  `imageBytes` are the bytes read from
the image file; `dumps`/`loads` are the external `json` functions;
`respond` is the HTTP transport, mapping the posted request to the
response text `r.text`.  The first component lists every request the
function posts, in order; the second is the returned string or the raised
`ValueError` message. -/
def scoreImageWithHttp (dumps : Json → String) (loads : String → Option Json)
    (respond : HttpRequest → String) (imageBytes : List Nat)
    (serviceEndpointUrl : String) (serviceKey : Option String)
    (parameters : Json) : List HttpRequest × Except String String :=
  let req := mkScoreRequest dumps imageBytes serviceEndpointUrl serviceKey parameters
  ([req], tryParseResult loads (respond req))

/-- Outcome of running the classifier-selection cell. -/
inductive PyCellOutcome where
  | assignedClassifier : PyCellOutcome
  | raisedException (msg : String) : PyCellOutcome
  | raisedNameError (var : String) : PyCellOutcome
deriving DecidableEq

/-- Embedding of the classifier-selection cell:
`if classifier_name.lower() == "dnn": ... classifier = dnn_model
else: raise Exception("Classifier unknown: " + classifier)`.
The `else` branch evaluates the name `classifier`, but `classifier` is
assigned only inside the `if` branch (the svm branch is commented out), so
in a fresh sequential run of the notebook the name is unbound there and
Python raises `NameError` while building the exception message; the
`Exception("Classifier unknown: ...")` is never constructed. -/
def classifierSelectionCell (classifierName : String) : PyCellOutcome :=
  if pyLower classifierName = "dnn" then PyCellOutcome.assignedClassifier
  else PyCellOutcome.raisedNameError "classifier"

/-- State of the cloud model-management account: the names of the
currently existing webservices. -/
structure CloudState where
  services : List String
deriving DecidableEq

/-- Embedding of `deploy_obj.is_existing_service()`: whether a webservice
with the deployment name exists. -/
def isExistingService (s : CloudState) (deploymentName : String) : Bool :=
  s.services.contains deploymentName

/-- Embedding of `AMLDeployment.delete_if_service_exist(deployment_name)`:
the webservice with that name, if any, is removed. -/
def deleteIfServiceExist (s : CloudState) (deploymentName : String) : CloudState :=
  CloudState.mk (s.services.filter (fun m => m ≠ deploymentName))

/-- Effect of `deploy_obj.deploy()`: a webservice with the deployment name
is created. -/
def deployStep (s : CloudState) (deploymentName : String) : CloudState :=
  CloudState.mk (deploymentName :: s.services)

/-- Observable calls the deployment cell makes against the cloud
account. -/
inductive DeployAction where
  | checkExisting (result : Bool)
  | deleteService (name : String)
  | deployService (name : String)
deriving DecidableEq

/-- Embedding of the deployment cell:
`if deploy_obj.is_existing_service():
AMLDeployment.delete_if_service_exist(deployment_name)` followed by
`deploy_obj.deploy()`.  The trace pairs each call with the cloud state in
which it is issued. -/
def deploymentCellTrace (s : CloudState) (deploymentName : String) :
    List (DeployAction × CloudState) :=
  if isExistingService s deploymentName then
    let s1 := deleteIfServiceExist s deploymentName
    [(DeployAction.checkExisting true, s),
     (DeployAction.deleteService deploymentName, s),
     (DeployAction.deployService deploymentName, s1)]
  else
    [(DeployAction.checkExisting false, s),
     (DeployAction.deployService deploymentName, s)]

/-! Helper lemmas about base64 output and Python's bytes `repr`. -/

theorem b64Char_plain (n : Nat) : plainB64 (b64Char n) = true := by
  simp only [b64Char, plainB64, decide_eq_true_eq]
  split_ifs <;> omega

theorem b64encode_all_plain : ∀ bs : List Nat, ∀ x ∈ b64encode bs, plainB64 x = true
  | [] => by intro x hx; simp [b64encode] at hx
  | [a] => by
      intro x hx
      simp only [b64encode, List.mem_cons, List.not_mem_nil, or_false] at hx
      rcases hx with h | h | h | h <;> subst h <;> first | exact b64Char_plain _ | decide
  | [a, b] => by
      intro x hx
      simp only [b64encode, List.mem_cons, List.not_mem_nil, or_false] at hx
      rcases hx with h | h | h | h <;> subst h <;> first | exact b64Char_plain _ | decide
  | a :: b :: c :: rest => by
      intro x hx
      simp only [b64encode, List.mem_cons] at hx
      rcases hx with h | h | h | h | h
      · subst h; exact b64Char_plain _
      · subst h; exact b64Char_plain _
      · subst h; exact b64Char_plain _
      · subst h; exact b64Char_plain _
      · exact b64encode_all_plain rest x h

theorem pyByteEscape_plain (b : Nat) (h : plainB64 b = true) :
    pyByteEscape 39 b = [b] := by
  simp only [plainB64, decide_eq_true_eq] at h
  unfold pyByteEscape
  rw [if_neg, if_neg, if_neg, if_neg, if_neg, if_pos] <;> omega

theorem flatten_map_escape (bs : List Nat) (h : ∀ x ∈ bs, plainB64 x = true) :
    (bs.map (pyByteEscape 39)).flatten = bs := by
  induction bs with
  | nil => rfl
  | cons a t ih =>
      simp only [List.map_cons, List.flatten_cons]
      rw [pyByteEscape_plain a (h a (List.mem_cons_self a t)),
        ih (fun x hx => h x (List.mem_cons_of_mem a hx))]
      rfl

theorem pyBytesRepr_of_plain (bs : List Nat) (h : ∀ x ∈ bs, plainB64 x = true) :
    pyBytesRepr bs = asciiString (98 :: 39 :: (bs ++ [39])) := by
  have h39 : bs.contains 39 = false := by
    by_contra hc
    have hmem : (39 : Nat) ∈ bs := List.elem_iff.mp (Bool.of_not_eq_false hc)
    have := h 39 hmem
    simp [plainB64] at this
  unfold pyBytesRepr
  rw [if_neg]
  · show asciiString ([98, 39] ++ (List.map (pyByteEscape 39) bs).flatten ++ [39]) =
      asciiString (98 :: 39 :: (bs ++ [39]))
    rw [flatten_map_escape bs h]
    rfl
  · intro hcon
    rw [h39] at hcon
    exact Bool.false_ne_true hcon.1

theorem isExisting_after_delete (s : CloudState) (n : String) :
    isExistingService (deleteIfServiceExist s n) n = false := by
  simp only [isExistingService, deleteIfServiceExist]
  by_contra hc
  have hmem : n ∈ (s.services.filter (fun m => m ≠ n)) :=
    List.elem_iff.mp (Bool.of_not_eq_false hc)
  have := List.of_mem_filter hmem
  simp at this

theorem parseStep_eq_error (loads : String → Option Json) (errText : String)
    (j : Json) (hng : ¬ goodFirst loads j) :
    parseStep loads errText j = Except.error (scoreErrorMsg errText) := by
  unfold parseStep
  split
  · next s0 hidx =>
      cases hload : loads s0 with
      | none => rfl
      | some w => exact absurd ⟨s0, hidx, by rw [hload]; rfl⟩ hng
  · rfl

theorem parseStep_first_str (loads : String → Option Json) (errText : String)
    (j : Json) (s : String) (hidx : indexZero j = some (Json.str s))
    (h2 : (loads s).isSome = true) :
    parseStep loads errText j = Except.ok s := by
  unfold parseStep
  split
  · next s0 hidx0 =>
      rw [hidx] at hidx0
      cases hidx0
      obtain ⟨w, hw⟩ := Option.isSome_iff_exists.mp h2
      rw [hw]
  · next hne =>
      exact absurd hidx (fun hc => hne s hc)

/-! Theorems for the claims. -/

/-- C1: the claim says a classifier name whose lowercase form is not
"dnn" makes the cell raise `Exception("Classifier unknown: " +
classifier name)`.  The code instead concatenates the variable
`classifier`, which is assigned only inside the `if` branch, so in a
fresh run the else branch raises `NameError` on the unbound name
`classifier` and the intended exception is never constructed. -/
theorem classifier_selection_name_error (name : String)
    (h : ¬ pyLower name = "dnn") :
    classifierSelectionCell name = PyCellOutcome.raisedNameError "classifier" := by
  simp [classifierSelectionCell, h]

theorem classifier_selection_name_error_witness :
    classifierSelectionCell "svm" = PyCellOutcome.raisedNameError "classifier" :=
  classifier_selection_name_error "svm" (by decide)

/-- C2: whenever the response text does not parse as JSON, or parses to a
value whose first element is not a string that itself parses as JSON,
`score_image_with_http` raises
`ValueError("Incorrect output format. Result cant not be parsed: " +
r.text)`. -/
theorem score_image_with_http_malformed_raises
    (dumps : Json → String) (loads : String → Option Json)
    (respond : HttpRequest → String) (imageBytes : List Nat)
    (serviceEndpointUrl : String) (serviceKey : Option String)
    (parameters : Json)
    (h : loads (respond (mkScoreRequest dumps imageBytes serviceEndpointUrl
            serviceKey parameters)) = none ∨
         ∃ j, loads (respond (mkScoreRequest dumps imageBytes serviceEndpointUrl
            serviceKey parameters)) = some j ∧ ¬ goodFirst loads j) :
    (scoreImageWithHttp dumps loads respond imageBytes serviceEndpointUrl
        serviceKey parameters).2 =
      Except.error (scoreErrorMsg (respond (mkScoreRequest dumps imageBytes
        serviceEndpointUrl serviceKey parameters))) := by
  show tryParseResult loads (respond (mkScoreRequest dumps imageBytes
    serviceEndpointUrl serviceKey parameters)) = _
  rcases h with h | ⟨j, hj, hng⟩
  · simp [tryParseResult, h]
  · unfold tryParseResult
    rw [hj]
    exact parseStep_eq_error loads _ j hng

theorem score_image_with_http_malformed_raises_witness :
    (scoreImageWithHttp (fun _ => "") (fun _ => none) (fun _ => "oops")
        [] "u" none Json.null).2 =
      Except.error (scoreErrorMsg "oops") :=
  score_image_with_http_malformed_raises (fun _ => "") (fun _ => none)
    (fun _ => "oops") [] "u" none Json.null (Or.inl rfl)

/-- C3: the body POSTed by `score_image_with_http` is the `json.dumps`
serialization of a list of objects, each of which has exactly the two
keys "image_in_base64" and "parameters". -/
theorem score_image_with_http_body_shape
    (dumps : Json → String) (loads : String → Option Json)
    (respond : HttpRequest → String) (imageBytes : List Nat)
    (serviceEndpointUrl : String) (serviceKey : Option String)
    (parameters : Json) :
    (scoreImageWithHttp dumps loads respond imageBytes serviceEndpointUrl
        serviceKey parameters).1 =
      [mkScoreRequest dumps imageBytes serviceEndpointUrl serviceKey parameters] ∧
    (mkScoreRequest dumps imageBytes serviceEndpointUrl serviceKey
        parameters).body =
      dumps (Json.arr [mkImageRequest imageBytes parameters]) ∧
    Json.objKeys (mkImageRequest imageBytes parameters) =
      some ["image_in_base64", "parameters"] :=
  ⟨rfl, rfl, rfl⟩

/-- C4: whenever the response text parses as a JSON list whose first
element is a string that itself parses as JSON, `score_image_with_http`
returns that first element unchanged. -/
theorem score_image_with_http_returns_first
    (dumps : Json → String) (loads : String → Option Json)
    (respond : HttpRequest → String) (imageBytes : List Nat)
    (serviceEndpointUrl : String) (serviceKey : Option String)
    (parameters : Json) (rest : List Json) (s : String)
    (h1 : loads (respond (mkScoreRequest dumps imageBytes serviceEndpointUrl
            serviceKey parameters)) = some (Json.arr (Json.str s :: rest)))
    (h2 : (loads s).isSome = true) :
    (scoreImageWithHttp dumps loads respond imageBytes serviceEndpointUrl
        serviceKey parameters).2 = Except.ok s := by
  show tryParseResult loads (respond (mkScoreRequest dumps imageBytes
    serviceEndpointUrl serviceKey parameters)) = _
  unfold tryParseResult
  rw [h1]
  exact parseStep_first_str loads _ (Json.arr (Json.str s :: rest)) s rfl h2

theorem score_image_with_http_returns_first_witness :
    (scoreImageWithHttp (fun _ => "")
        (fun t => if t = "RESP" then some (Json.arr [Json.str "42"])
          else if t = "42" then some (Json.num 42) else none)
        (fun _ => "RESP") [] "u" none Json.null).2 = Except.ok "42" :=
  score_image_with_http_returns_first (fun _ => "")
    (fun t => if t = "RESP" then some (Json.arr [Json.str "42"])
      else if t = "42" then some (Json.num 42) else none)
    (fun _ => "RESP") [] "u" none Json.null [] "42" rfl rfl

/-- C6: in the deployment cell, when a webservice with the deployment
name already exists, the trace is check, delete, deploy — so the delete
happens before `deploy()` — and every `deploy()` call in the trace is
issued in a cloud state where no service with that name exists. -/
theorem deploy_only_after_delete (s : CloudState) (deploymentName : String) :
    (isExistingService s deploymentName = true →
      deploymentCellTrace s deploymentName =
        [(DeployAction.checkExisting true, s),
         (DeployAction.deleteService deploymentName, s),
         (DeployAction.deployService deploymentName,
           deleteIfServiceExist s deploymentName)]) ∧
    (∀ p ∈ deploymentCellTrace s deploymentName,
      p.1 = DeployAction.deployService deploymentName →
      isExistingService p.2 deploymentName = false) := by
  constructor
  · intro h
    simp [deploymentCellTrace, h]
  · intro p hp hdeploy
    by_cases h : isExistingService s deploymentName
    · simp only [deploymentCellTrace, h, if_true, List.mem_cons,
        List.not_mem_nil, or_false] at hp
      rcases hp with hp | hp | hp <;> subst hp
      · exact absurd hdeploy (by simp)
      · exact absurd hdeploy (by simp)
      · exact isExisting_after_delete s deploymentName
    · simp only [deploymentCellTrace, h, if_false, List.mem_cons,
        List.not_mem_nil, or_false, Bool.false_eq_true] at hp
      rcases hp with hp | hp <;> subst hp
      · exact absurd hdeploy (by simp)
      · exact Bool.not_eq_true _ ▸ (by simpa using h)

theorem deploy_only_after_delete_witness :
    deploymentCellTrace (CloudState.mk ["icd"]) "icd" =
      [(DeployAction.checkExisting true, CloudState.mk ["icd"]),
       (DeployAction.deleteService "icd", CloudState.mk ["icd"]),
       (DeployAction.deployService "icd",
         deleteIfServiceExist (CloudState.mk ["icd"]) "icd")] ∧
    isExistingService
      (deleteIfServiceExist (CloudState.mk ["icd"]) "icd") "icd" = false := by
  have h := deploy_only_after_delete (CloudState.mk ["icd"]) "icd"
  refine ⟨h.1 (by decide), ?_⟩
  exact h.2
    (DeployAction.deployService "icd",
      deleteIfServiceExist (CloudState.mk ["icd"]) "icd")
    (by rw [h.1 (by decide)]; simp) rfl

/-- C7: a call of `score_image_with_http` posts exactly one HTTP request,
whatever the transport returns; the request list never has a second
element, so a malformed response raises the error without a retry. -/
theorem score_image_with_http_single_post
    (dumps : Json → String) (loads : String → Option Json)
    (respond : HttpRequest → String) (imageBytes : List Nat)
    (serviceEndpointUrl : String) (serviceKey : Option String)
    (parameters : Json) :
    (scoreImageWithHttp dumps loads respond imageBytes serviceEndpointUrl
        serviceKey parameters).1 =
      [mkScoreRequest dumps imageBytes serviceEndpointUrl serviceKey
        parameters] ∧
    (scoreImageWithHttp dumps loads respond imageBytes serviceEndpointUrl
        serviceKey parameters).1.length = 1 :=
  ⟨rfl, rfl⟩

/-- C8: the payload serialized into the request body is a JSON list of
length exactly one, whatever the arguments are. -/
theorem score_image_with_http_payload_singleton
    (dumps : Json → String) (imageBytes : List Nat)
    (serviceEndpointUrl : String) (serviceKey : Option String)
    (parameters : Json) :
    (mkScoreRequest dumps imageBytes serviceEndpointUrl serviceKey
        parameters).body = dumps (mkPayload imageBytes parameters) ∧
    Json.arrLength (mkPayload imageBytes parameters) = some 1 :=
  ⟨rfl, rfl⟩

/-- C9: the "image_in_base64" field holds Python's string rendering of the
`base64.b64encode` bytes object — a `b` prefix (ASCII 98), a single quote
(ASCII 39), the base64 text, and a closing single quote — and that string
is three characters longer than the bare base64 text, so it is never the
bare base64 text itself. -/
theorem image_in_base64_is_python_bytes_repr (imageBytes : List Nat)
    (parameters : Json) :
    mkImageRequest imageBytes parameters =
      Json.obj [("image_in_base64",
          Json.str (asciiString (98 :: 39 :: (b64encode imageBytes ++ [39])))),
        ("parameters", parameters)] ∧
    (pyBytesRepr (b64encode imageBytes)).length =
      (asciiString (b64encode imageBytes)).length + 3 := by
  have hrepr := pyBytesRepr_of_plain (b64encode imageBytes)
    (b64encode_all_plain imageBytes)
  constructor
  · unfold mkImageRequest
    rw [hrepr]
  · rw [hrepr]
    simp [asciiString, String.length]

/-- C10: the headers of the posted request always include
`Content-Type: application/json`, and include an `Authorization` header,
whose value is `Bearer ` followed by the service key, exactly when a
service key is given. -/
theorem score_image_with_http_headers
    (dumps : Json → String) (imageBytes : List Nat)
    (serviceEndpointUrl : String) (serviceKey : Option String)
    (parameters : Json) :
    (mkScoreRequest dumps imageBytes serviceEndpointUrl serviceKey
        parameters).headers = mkHeaders serviceKey ∧
    (mkHeaders serviceKey).lookup "Content-Type" =
      some "application/json" ∧
    (mkHeaders serviceKey).lookup "Authorization" =
      Option.map (fun k => "Bearer " ++ k) serviceKey := by
  refine ⟨rfl, ?_, ?_⟩ <;> cases serviceKey <;> rfl

end ClassificationNotebook
